import Mathlib

/-!
# Verification of the SOTS training orchestration loop

Shallow embedding of `tracking/train_sot.py` (function `epoch_train`) and
proofs about its epoch loop: phase transitions, checkpointing, sampler
construction and resume behaviour.

The configuration object mirrors the fields of the YAML-backed config read
by the script (`config.MODEL.NAME`, `config.COMMON.GPUS`,
`config.TRAIN.{START_EPOCH, END_EPOCH, UNFIX_EPOCH, BATCH, WORKERS,
PRETRAIN, RESUME, DDP.ISTRUE, DDP.RANK}`).
-/

namespace TrainSot

/-- Configuration record consumed by `epoch_train`.  `RESUME` models
`config.TRAIN.RESUME`: `none` when the field is unset (falsy), and
`some e` when it points at a checkpoint file whose stored epoch counter
is `e`. -/
structure Config where
  MODEL_NAME : String
  PRETRAIN : String
  GPUS : String
  START_EPOCH : Nat
  END_EPOCH : Nat
  UNFIX_EPOCH : Nat
  BATCH : Nat
  WORKERS : Nat
  DDP_ISTRUE : Bool
  DDP_RANK : Nat
  RESUME : Option Nat
deriving DecidableEq

/-- Scans a character list for the substring "Siam", mirroring the Python
membership test `'Siam' in config.MODEL.NAME` (line 51). -/
def hasSiam : List Char → Bool
  | 'S' :: 'i' :: 'a' :: 'm' :: _ => true
  | _ :: rest => hasSiam rest
  | [] => false

/-- The architecture gate of `epoch_train` lines 51-55: the model is
supported when its name contains "Siam" or is one of the four listed
architectures; otherwise `Exception('Not implemented model type!')`
is raised. -/
def supportedModel (name : String) : Bool :=
  hasSiam name.data || ["Ocean", "OceanPlus", "AutoMatch", "TransT"].contains name

/-- Splits a character list at commas, mirroring Python `str.split(',')`
(line 82: `gpus = [int(i) for i in config.COMMON.GPUS.split(',')]`). -/
def splitComma : List Char → List (List Char)
  | [] => [[]]
  | ',' :: rest => [] :: splitComma rest
  | c :: rest =>
    match splitComma rest with
    | [] => [[c]]
    | g :: gs => (c :: g) :: gs

/-- Lines 82-83: `gpu_num = world_size = len(gpus)` where `gpus` is the
comma-split of `config.COMMON.GPUS`. -/
def gpuNum (cfg : Config) : Nat :=
  (splitComma cfg.GPUS.data).length

/-- Training phase of the optimization state (spec §3 `TrainingPhase`). -/
inductive Phase
  | WARM
  | FULL
deriving DecidableEq

/-- Abstract optimization state: the epoch argument the builder received and
whether it was built by the simple (table-driven) builder. -/
structure OptState where
  builtFor : Nat
  simple : Bool
deriving DecidableEq

/-- Modelled from the spec: `learner.build_siamese_opt_lr(config, model, e)`
lives in `utils/lr_scheduler.py`, which is not part of the provided sources.
Per spec §4.2 `build(model, phase, start_epoch)` returns optimization state
appropriate to the phase of its start epoch; we record the epoch argument. -/
def build_siamese_opt_lr (_cfg : Config) (start_epoch : Nat) : OptState :=
  { builtFor := start_epoch, simple := false }

/-- Modelled from the spec: `learner.build_simple_siamese_opt_lr` (also in
the missing `utils/lr_scheduler.py`) is the table-driven strategy used for
SiamDW/SiamFC; it takes no epoch argument. -/
def build_simple_siamese_opt_lr (_cfg : Config) : OptState :=
  { builtFor := 0, simple := true }

/-- Modelled from the spec: the phase of an optimization state.  Spec §4.2
ties the phase to the builder's start epoch relative to the phase-boundary
epoch (`UNFIX_EPOCH`); spec §4.4 notes that architectures without a warm
phase configured (the simple, table-driven ones) start directly in FULL. -/
def OptState.phase (cfg : Config) (s : OptState) : Phase :=
  if s.simple then Phase.FULL
  else if s.builtFor < cfg.UNFIX_EPOCH then Phase.WARM
  else Phase.FULL

/-- The startup optimizer construction, lines 62-69 of `train_sot.py`:
if `START_EPOCH != UNFIX_EPOCH` and the model is not SiamDW/SiamFC the
builder receives `START_EPOCH`; otherwise SiamDW/SiamFC get the simple
builder and every other model gets the builder at epoch `0` (the line
carries the source comment `# resume wrong (last line)`). -/
def initialOpt (cfg : Config) : OptState :=
  if !(cfg.START_EPOCH == cfg.UNFIX_EPOCH)
      && !(["SiamDW", "SiamFC"].contains cfg.MODEL_NAME) then
    build_siamese_opt_lr cfg cfg.START_EPOCH
  else if ["SiamDW", "SiamFC"].contains cfg.MODEL_NAME then
    build_simple_siamese_opt_lr cfg
  else
    build_siamese_opt_lr cfg 0

/-- Modelled from the spec: `loader.restore_from` lives in
`utils/model_helper.py`, which is not part of the provided sources.  Per
spec §4.3 restore returns the next start epoch, and per the §3 invariant a
restored run resumes at `checkpoint.epoch + 1`. -/
def restore_from (ckptEpoch : Nat) : Nat :=
  ckptEpoch + 1

/-- Lines 76-79: the loop's start epoch is the restored one when
`config.TRAIN.RESUME` is set, else `config.TRAIN.START_EPOCH`. -/
def startEpoch (cfg : Config) : Nat :=
  match cfg.RESUME with
  | some ck => restore_from ck
  | none => cfg.START_EPOCH

/-- Observable facts of one iteration of the `for epoch in
range(start_epoch, config.TRAIN.END_EPOCH)` loop (lines 101-134):
which data loader was built (lines 104-110), whether the backbone-unfix
rebuild fired (lines 113-117), the active optimization state during the
trainer call, the epoch index handed to the trainer (line 128) and the
arguments of the checkpoint save (line 134). -/
structure IterRecord where
  epoch : Nat
  loaderDistributed : Bool
  loaderBatch : Nat
  loaderDropLast : Bool
  samplerWorldSize : Option Nat
  samplerRank : Option Nat
  samplerShuffle : Option Bool
  samplerSeed : Option Nat
  rebuildFired : Bool
  opt : OptState
  optRebuilt : Bool
  trainerEpoch : Nat
  savedEpoch : Nat
  savedIsBest : Bool
deriving DecidableEq

/-- One iteration of the epoch loop.  The carried state is the active
optimization state together with a flag recording whether it came from the
in-loop rebuild at line 115.  Lines 104-110: the non-DDP branch builds a
plain `DataLoader(batch_size=BATCH*gpu_num, sampler=None, drop_last=True)`;
the DDP branch builds `DistributedSampler(num_replicas=world_size,
rank=rank, shuffle=True, seed=42)` and a loader with the same batch size
and `drop_last=True`.  Lines 113-117: when `epoch == UNFIX_EPOCH` the
optimizer and schedule are rebuilt via `build_siamese_opt_lr(config,
model.module, epoch)`.  Line 128: the trainer inputs carry
`'epoch': epoch + 1`.  Line 134: `save_model(model, epoch, ...,
isbest=False)`. -/
def loopStep (cfg : Config) (st : OptState × Bool) (e : Nat) :
    (OptState × Bool) × IterRecord :=
  let st2 := if e = cfg.UNFIX_EPOCH then (build_siamese_opt_lr cfg e, true) else st
  (st2,
   { epoch := e
     loaderDistributed := cfg.DDP_ISTRUE
     loaderBatch := cfg.BATCH * gpuNum cfg
     loaderDropLast := true
     samplerWorldSize := if cfg.DDP_ISTRUE then some (gpuNum cfg) else none
     samplerRank := if cfg.DDP_ISTRUE then some cfg.DDP_RANK else none
     samplerShuffle := if cfg.DDP_ISTRUE then some true else none
     samplerSeed := if cfg.DDP_ISTRUE then some 42 else none
     rebuildFired := decide (e = cfg.UNFIX_EPOCH)
     opt := st2.1
     optRebuilt := st2.2
     trainerEpoch := e + 1
     savedEpoch := e
     savedIsBest := false })

/-- Runs the epoch loop body over a list of epoch indices, threading the
optimization state. -/
def runLoopAux (cfg : Config) : OptState × Bool → List Nat → List IterRecord
  | _, [] => []
  | st, e :: es =>
    (loopStep cfg st e).2 :: runLoopAux cfg (loopStep cfg st e).1 es

/-- The whole epoch loop of `epoch_train` (lines 101-134): iterates over
`range(start_epoch, END_EPOCH)` starting from the startup optimization
state of lines 62-69. -/
def runLoop (cfg : Config) : List IterRecord :=
  runLoopAux cfg (initialOpt cfg, false)
    (List.range' (startEpoch cfg) (cfg.END_EPOCH - startEpoch cfg))

/-- Observable events of `epoch_train`, in program order. -/
inductive Event
  | modelBuilt
  | deviceCuda
  | pretrainLoaded (path : String)
  | optimizerBuilt (builtFor : Nat) (simple : Bool)
  | restored (ckptEpoch : Nat)
  | parallelWrapped (ddp : Bool)
  | loaderBuilt (distributed : Bool) (batch : Nat)
  | rebuild (epoch : Nat)
  | trainerCalled (epoch : Nat)
  | checkpointSaved (epoch : Nat) (isBest : Bool)
  | fatalUnsupportedModel
deriving DecidableEq

/-- The events of one loop iteration, in source order: loader construction
(lines 104-110), then the conditional rebuild (lines 113-117), then the
trainer call (line 131), then the checkpoint save (line 134). -/
def iterEvents (r : IterRecord) : List Event :=
  Event.loaderBuilt r.loaderDistributed r.loaderBatch ::
    ((if r.rebuildFired then [Event.rebuild r.epoch] else []) ++
      [Event.trainerCalled r.trainerEpoch,
       Event.checkpointSaved r.savedEpoch r.savedIsBest])

/-- Shallow embedding of `epoch_train` (lines 48-136) as its event trace.
The architecture gate (lines 51-55) is the first statement of the
function: an unsupported model name raises before the model is moved to
the device (line 57), before the pretrain load (line 59), before the
optimizer construction (lines 62-69), before the resume (lines 76-79),
before the parallel wrap (lines 89-93) and before the epoch loop. -/
def epoch_train (cfg : Config) : List Event :=
  if supportedModel cfg.MODEL_NAME then
    Event.modelBuilt :: Event.deviceCuda :: Event.pretrainLoaded cfg.PRETRAIN ::
      Event.optimizerBuilt (initialOpt cfg).builtFor (initialOpt cfg).simple ::
      ((match cfg.RESUME with
        | some ck => [Event.restored ck]
        | none => []) ++
       Event.parallelWrapped cfg.DDP_ISTRUE ::
         ((runLoop cfg).map iterEvents).flatten)
  else
    [Event.fatalUnsupportedModel]

/-- Recognizes checkpoint-save events. -/
def isSaveEvent : Event → Bool
  | Event.checkpointSaved _ _ => true
  | _ => false

/-- Recognizes device-touching events (`model.cuda()` at line 57 and the
DataParallel / DistributedDataParallel wrap at lines 89-93). -/
def isDeviceEvent : Event → Bool
  | Event.deviceCuda => true
  | Event.parallelWrapped _ => true
  | _ => false

/-- Recognizes optimizer/schedule construction events. -/
def isOptimizerBuiltEvent : Event → Bool
  | Event.optimizerBuilt _ _ => true
  | Event.rebuild _ => true
  | _ => false

/-- Recognizes data-loader construction events. -/
def isLoaderBuiltEvent : Event → Bool
  | Event.loaderBuilt _ _ => true
  | _ => false

/-- Modelled from the spec: the torch `DataLoader` is an external
collaborator; with `drop_last=True` (lines 106 and 110) it yields
`⌊datasetLen / batch⌋` batches per epoch. -/
def loaderNumBatches (datasetLen batch : Nat) : Nat :=
  datasetLen / batch

/-- Modelled from the spec: the torch `DistributedSampler` is an external
collaborator; with `num_replicas = world` (line 108) each rank receives
`⌈datasetLen / world⌉` samples. -/
def distSamplerLen (datasetLen world : Nat) : Nat :=
  (datasetLen + world - 1) / world

/-- Batches per epoch of the non-DDP branch (lines 105-106): plain loader
over the whole dataset with batch size `BATCH * gpu_num`. -/
def numBatchesLocal (cfg : Config) (datasetLen : Nat) : Nat :=
  loaderNumBatches datasetLen (cfg.BATCH * gpuNum cfg)

/-- Batches per epoch of the DDP branch (lines 108-110): loader over this
rank's shard of the `DistributedSampler` with the same batch size
`BATCH * gpu_num`. -/
def numBatchesDist (cfg : Config) (datasetLen : Nat) : Nat :=
  loaderNumBatches (distSamplerLen datasetLen (gpuNum cfg)) (cfg.BATCH * gpuNum cfg)

/-! ## Concrete configurations used in scenarios, counterexamples and
witnesses -/

/-- The spec §8 scenario configuration: `start_epoch=0, end_epoch=3,
phase_boundary_epoch=1`, non-resumed, single GPU, supported non-simple
architecture. -/
def cfgScenario : Config :=
  { MODEL_NAME := "AutoMatch", PRETRAIN := "automatch.pth", GPUS := "0",
    START_EPOCH := 0, END_EPOCH := 3, UNFIX_EPOCH := 1, BATCH := 32,
    WORKERS := 8, DDP_ISTRUE := false, DDP_RANK := 0, RESUME := none }

/-- Resume scenario: same run configuration but restoring from a
checkpoint saved at epoch 1 (`phase_boundary_epoch = 1`). -/
def cfgResumeBug : Config :=
  { cfgScenario with END_EPOCH := 4, RESUME := some 1 }

/-- A non-resumed run whose configured start epoch (2) lies strictly past
the phase-boundary epoch (1). -/
def cfgLateStart : Config :=
  { cfgScenario with START_EPOCH := 2, END_EPOCH := 4 }

/-- Two local GPUs with distributed mode disabled. -/
def cfgTwoGpu : Config :=
  { cfgScenario with GPUS := "0,1", END_EPOCH := 2 }

/-- A distributed (DDP) run on two GPUs, rank 1. -/
def cfgDdp : Config :=
  { cfgScenario with GPUS := "0,1", DDP_ISTRUE := true, DDP_RANK := 1 }

/-- A configuration whose model name is outside the supported set. -/
def cfgUnsupported : Config :=
  { cfgScenario with MODEL_NAME := "ResNet50" }

/-- A configuration whose start epoch equals the phase-boundary epoch. -/
def cfgBoundaryStart : Config :=
  { cfgScenario with START_EPOCH := 5, UNFIX_EPOCH := 5, END_EPOCH := 8 }

/-! ## Generic lemmas about the epoch loop -/

theorem runLoopAux_length (cfg : Config) :
    ∀ (es : List Nat) (st : OptState × Bool),
      (runLoopAux cfg st es).length = es.length := by
  intro es
  induction es with
  | nil => intro st; rfl
  | cons e es ih => intro st; simp [runLoopAux, ih]

theorem runLoopAux_all (cfg : Config) (f : IterRecord → Bool)
    (hf : ∀ st e, f (loopStep cfg st e).2 = true) :
    ∀ (es : List Nat) (st : OptState × Bool),
      (runLoopAux cfg st es).all f = true := by
  intro es
  induction es with
  | nil => intro st; rfl
  | cons e es ih => intro st; simp [runLoopAux, hf, ih]

/-- The loop over epochs that all lie strictly past the boundary never
rebuilds: it maps each epoch through `loopStep` with an unchanged carried
state. -/
theorem runLoopAux_const (cfg : Config) :
    ∀ (n s : Nat) (st : OptState × Bool), cfg.UNFIX_EPOCH < s →
      runLoopAux cfg st (List.range' s n)
        = (List.range' s n).map (fun e => (loopStep cfg st e).2) := by
  intro n
  induction n with
  | zero => intro s st _; rfl
  | succ n ih =>
    intro s st hs
    rw [List.range'_succ, List.map_cons]
    have hne : ¬ (s = cfg.UNFIX_EPOCH) := by omega
    have hstep : (loopStep cfg st s).1 = st := by
      simp [loopStep, hne]
    rw [runLoopAux, hstep, ih (s + 1) st (by omega)]

/-- Characterization of the loop when it starts at or before the boundary:
each record is produced by `loopStep` applied to the startup state before
the boundary and to the rebuilt state from the boundary on. -/
theorem runLoopAux_through (cfg : Config) :
    ∀ (n s : Nat) (st : OptState × Bool), s ≤ cfg.UNFIX_EPOCH →
      runLoopAux cfg st (List.range' s n)
        = (List.range' s n).map (fun e =>
            (loopStep cfg
              (if e < cfg.UNFIX_EPOCH then st
               else (build_siamese_opt_lr cfg cfg.UNFIX_EPOCH, true)) e).2) := by
  intro n
  induction n with
  | zero => intro s st _; rfl
  | succ n ih =>
    intro s st hs
    rw [List.range'_succ, List.map_cons, runLoopAux]
    by_cases hb : s = cfg.UNFIX_EPOCH
    · have hhead : (loopStep cfg st s).2
          = (loopStep cfg
              (if s < cfg.UNFIX_EPOCH then st
               else (build_siamese_opt_lr cfg cfg.UNFIX_EPOCH, true)) s).2 := by
        simp [loopStep, hb]
      have hstate : (loopStep cfg st s).1
          = (build_siamese_opt_lr cfg cfg.UNFIX_EPOCH, true) := by
        simp [loopStep, hb]
      rw [hhead, hstate, runLoopAux_const cfg n (s + 1) _ (by omega)]
      congr 1
      apply List.map_congr_left
      intro e he
      have h1 : s + 1 ≤ e := (List.mem_range'_1.mp he).1
      have h2 : ¬ (e < cfg.UNFIX_EPOCH) := by omega
      simp [h2]
    · have hlt : s < cfg.UNFIX_EPOCH := by omega
      have hstate : (loopStep cfg st s).1 = st := by
        simp [loopStep, hb]
      rw [hstate, ih (s + 1) st (by omega)]
      simp [hlt]

theorem iterEvents_countP_save (r : IterRecord) :
    (iterEvents r).countP isSaveEvent = 1 := by
  cases h : r.rebuildFired <;>
    simp [iterEvents, h, isSaveEvent, List.countP_cons, List.countP_append]

theorem runLoopAux_countP_save (cfg : Config) :
    ∀ (es : List Nat) (st : OptState × Bool),
      (((runLoopAux cfg st es).map iterEvents).flatten).countP isSaveEvent
        = es.length := by
  intro es
  induction es with
  | nil => intro st; rfl
  | cons e es ih =>
    intro st
    simp [runLoopAux, List.countP_append, iterEvents_countP_save, ih]
    omega

theorem runLoopAux_countP_rebuild (cfg : Config) :
    ∀ (es : List Nat) (st : OptState × Bool),
      (runLoopAux cfg st es).countP (fun r => r.rebuildFired)
        = es.countP (fun e => decide (e = cfg.UNFIX_EPOCH)) := by
  intro es
  induction es with
  | nil => intro st; rfl
  | cons e es ih =>
    intro st
    simp only [runLoopAux, List.countP_cons, ih]
    congr 1

theorem countP_eq_range'_zero (u : Nat) :
    ∀ (n s : Nat), u < s →
      (List.range' s n).countP (fun e => decide (e = u)) = 0 := by
  intro n
  induction n with
  | zero => intro s _; rfl
  | succ n ih =>
    intro s hs
    rw [List.range'_succ, List.countP_cons, ih (s + 1) (by omega)]
    have : ¬ (s = u) := by omega
    simp [this]

theorem countP_eq_range'_le_one (u : Nat) :
    ∀ (n s : Nat), (List.range' s n).countP (fun e => decide (e = u)) ≤ 1 := by
  intro n
  induction n with
  | zero => intro s; simp
  | succ n ih =>
    intro s
    rw [List.range'_succ, List.countP_cons]
    by_cases h : s = u
    · rw [countP_eq_range'_zero u n (s + 1) (by omega)]
      simp [h]
    · simp only [h]
      simpa using ih (s + 1)

/-- The backbone-unfix rebuild fires at most once in any run: the loop
epochs are pairwise distinct, and the trigger is equality with the single
boundary epoch. -/
theorem runLoop_rebuild_le_one (cfg : Config) :
    (runLoop cfg).countP (fun r => r.rebuildFired) ≤ 1 := by
  rw [runLoop, runLoopAux_countP_rebuild]
  exact countP_eq_range'_le_one cfg.UNFIX_EPOCH _ _

/-! ## Claim theorems -/

/-- C9: in every loop iteration the trainer inputs carry epoch index
`epoch + 1` (line 128) while the checkpoint written right after the step is
keyed by the loop counter `epoch` itself (line 134), so the trainer always
sees an epoch one greater than the one recorded in that iteration's
checkpoint. -/
theorem trainer_epoch_offset (cfg : Config) :
    ((runLoop cfg).all fun r =>
      (r.trainerEpoch == r.epoch + 1) && (r.savedEpoch == r.epoch)) = true := by
  rw [runLoop]
  apply runLoopAux_all
  intro st e
  simp [loopStep]

/-- C5 (amended): the batch iterator uses the distributed partition-aware
sampler exactly when `config.TRAIN.DDP.ISTRUE` is set — not when
`world_size > 1`; `world_size` is just the local GPU count (lines 82-83)
and does not gate the choice (lines 104-110).  In both modes the loader
batch size is `BATCH * gpu_num`. -/
theorem sampler_gated_by_ddp_flag (cfg : Config) :
    ((runLoop cfg).all fun r =>
      (r.loaderDistributed == cfg.DDP_ISTRUE) &&
      (r.samplerWorldSize == if cfg.DDP_ISTRUE then some (gpuNum cfg) else none) &&
      (r.samplerRank == if cfg.DDP_ISTRUE then some cfg.DDP_RANK else none) &&
      (r.loaderBatch == cfg.BATCH * gpuNum cfg)) = true := by
  rw [runLoop]
  apply runLoopAux_all
  intro st e
  cases hD : cfg.DDP_ISTRUE <;> simp [loopStep, hD]

/-- C5 (counterexample): with two local GPUs and distributed mode
disabled, `world_size = 2 > 1` yet every epoch builds the local,
non-partitioned loader — refuting "distributed sampler exactly when
`world_size > 1`" and "distributed disabled implies `world_size = 1`". -/
theorem sampler_not_gated_by_world_size :
    gpuNum cfgTwoGpu = 2 ∧ cfgTwoGpu.DDP_ISTRUE = false ∧
    (runLoop cfgTwoGpu).map (fun r => r.loaderDistributed) = [false, false] ∧
    (runLoop cfgTwoGpu).map (fun r => r.samplerWorldSize) = [none, none] := by
  decide

/-- C7: on a distributed run every epoch constructs the
`DistributedSampler` with the same fixed seed 42, the same world size and
rank, and shuffling enabled (line 108) — the partitioning configuration is
invariant across the per-epoch loop. -/
theorem dist_sampler_invariant (cfg : Config) (h : cfg.DDP_ISTRUE = true) :
    ((runLoop cfg).all fun r =>
      (r.samplerSeed == some 42) &&
      (r.samplerWorldSize == some (gpuNum cfg)) &&
      (r.samplerRank == some cfg.DDP_RANK) &&
      (r.samplerShuffle == some true)) = true := by
  rw [runLoop]
  apply runLoopAux_all
  intro st e
  simp [loopStep, h]

/-- Witness for C7 at a concrete two-GPU DDP configuration. -/
theorem dist_sampler_invariant_witness :
    cfgDdp.DDP_ISTRUE = true ∧
    ((runLoop cfgDdp).all fun r =>
      (r.samplerSeed == some 42) &&
      (r.samplerWorldSize == some (gpuNum cfgDdp)) &&
      (r.samplerRank == some cfgDdp.DDP_RANK) &&
      (r.samplerShuffle == some true)) = true :=
  ⟨rfl, dist_sampler_invariant cfgDdp rfl⟩

/-- C10: when the configured start epoch equals the phase-boundary epoch
and the architecture is not SiamDW/SiamFC, the startup optimizer and
schedule are built for epoch 0 (line 69), not for the configured start
epoch. -/
theorem boundary_start_builds_for_zero (cfg : Config)
    (h1 : cfg.START_EPOCH = cfg.UNFIX_EPOCH)
    (h2 : (["SiamDW", "SiamFC"].contains cfg.MODEL_NAME) = false) :
    initialOpt cfg = build_siamese_opt_lr cfg 0 := by
  have h2' : ¬ (cfg.MODEL_NAME = "SiamDW" ∨ cfg.MODEL_NAME = "SiamFC") := by
    simpa using h2
  simp [initialOpt, h1, h2, h2']

/-- Witness for C10: `START_EPOCH = UNFIX_EPOCH = 5` with a non-simple
architecture builds the startup optimizer for epoch 0. -/
theorem boundary_start_builds_for_zero_witness :
    cfgBoundaryStart.START_EPOCH = cfgBoundaryStart.UNFIX_EPOCH ∧
    (["SiamDW", "SiamFC"].contains cfgBoundaryStart.MODEL_NAME) = false ∧
    initialOpt cfgBoundaryStart = build_siamese_opt_lr cfgBoundaryStart 0 :=
  ⟨rfl, by decide, boundary_start_builds_for_zero cfgBoundaryStart rfl (by decide)⟩

/-- C4: an unsupported model name makes `epoch_train` raise
`Exception('Not implemented model type!')` as its very first action
(lines 51-55): the trace is just the fatal error, with no device touched,
no optimizer or schedule built and no data loader constructed. -/
theorem unsupported_model_fails_fast (cfg : Config)
    (h : supportedModel cfg.MODEL_NAME = false) :
    epoch_train cfg = [Event.fatalUnsupportedModel] ∧
    (epoch_train cfg).countP isDeviceEvent = 0 ∧
    (epoch_train cfg).countP isOptimizerBuiltEvent = 0 ∧
    (epoch_train cfg).countP isLoaderBuiltEvent = 0 := by
  have he : epoch_train cfg = [Event.fatalUnsupportedModel] := by
    simp [epoch_train, h]
  refine ⟨he, ?_, ?_, ?_⟩ <;> rw [he] <;> rfl

/-- Witness for C4 at the concrete unsupported model name "ResNet50". -/
theorem unsupported_model_fails_fast_witness :
    supportedModel cfgUnsupported.MODEL_NAME = false ∧
    (epoch_train cfgUnsupported = [Event.fatalUnsupportedModel] ∧
     (epoch_train cfgUnsupported).countP isDeviceEvent = 0 ∧
     (epoch_train cfgUnsupported).countP isOptimizerBuiltEvent = 0 ∧
     (epoch_train cfgUnsupported).countP isLoaderBuiltEvent = 0) :=
  ⟨by decide, unsupported_model_fails_fast cfgUnsupported (by decide)⟩

/-- C8: with `world_size = 1` (a single local GPU) the distributed and
non-distributed loader constructions yield the same number of batches per
epoch: both use batch size `BATCH * gpu_num` and drop the last incomplete
batch, and a one-replica `DistributedSampler` hands the rank the whole
dataset. -/
theorem dist_local_batch_count_agree (cfg : Config) (datasetLen : Nat)
    (h : gpuNum cfg = 1) :
    numBatchesDist cfg datasetLen = numBatchesLocal cfg datasetLen := by
  simp [numBatchesDist, numBatchesLocal, distSamplerLen, h]

/-- Witness for C8 at a concrete single-GPU configuration and dataset of
size 100. -/
theorem dist_local_batch_count_agree_witness :
    gpuNum cfgScenario = 1 ∧
    numBatchesDist cfgScenario 100 = numBatchesLocal cfgScenario 100 :=
  ⟨by decide, dist_local_batch_count_agree cfgScenario 100 (by decide)⟩

/-- C6: for `start_epoch=0, end_epoch=3, phase_boundary_epoch=1`
(non-resumed, supported non-simple architecture) the startup optimizer is
built for epoch 0 in WARM phase, the full-phase rebuild fires exactly at
the iteration with `epoch == 1`, the loop runs exactly 3 iterations, and
checkpoints are saved for epochs 0, 1, 2 in order. -/
theorem scenario_three_epochs :
    (initialOpt cfgScenario).builtFor = 0 ∧
    (initialOpt cfgScenario).phase cfgScenario = Phase.WARM ∧
    (runLoop cfgScenario).length = 3 ∧
    (runLoop cfgScenario).map (fun r => (r.epoch, r.rebuildFired)) =
      [(0, false), (1, true), (2, false)] ∧
    (runLoop cfgScenario).map (fun r => r.opt.phase cfgScenario) =
      [Phase.WARM, Phase.FULL, Phase.FULL] ∧
    (runLoop cfgScenario).map (fun r => (r.savedEpoch, r.savedIsBest)) =
      [(0, false), (1, false), (2, false)] := by
  decide

/-- C1 (code bug): resuming from a checkpoint saved at epoch 1 with
`phase_boundary_epoch = 1` does resume the loop at epoch
`checkpoint.epoch + 1 = 2`, but the active optimization state stays the
warm-phase one built at startup for epoch 0: the rebuild trigger
`epoch == UNFIX_EPOCH` (line 113) can never fire for epochs `≥ 2`, so
epochs 2 and 3 train in WARM phase where the spec requires FULL.  The
source itself flags the startup-build line with `# resume wrong
(last line)` (line 69). -/
theorem resume_keeps_warm_phase_bug :
    startEpoch cfgResumeBug = 2 ∧
    (runLoop cfgResumeBug).map
        (fun r => (r.epoch, r.opt.phase cfgResumeBug, r.rebuildFired))
      = [(2, Phase.WARM, false), (3, Phase.WARM, false)] := by
  decide

/-- C2 (counterexample): in a non-resumed run with `START_EPOCH = 2` past
the boundary `UNFIX_EPOCH = 1`, every loop epoch is at or after the
boundary yet the active optimization state is never the rebuilt one — the
rebuild fires zero times, refuting "for epochs at or after the boundary
the optimization state is the full-phase rebuilt one" for every run. -/
theorem rebuild_claim_fails_for_late_start :
    cfgLateStart.RESUME = none ∧
    cfgLateStart.START_EPOCH = 2 ∧ cfgLateStart.UNFIX_EPOCH = 1 ∧
    ((runLoop cfgLateStart).all fun r =>
        !(decide (cfgLateStart.UNFIX_EPOCH ≤ r.epoch)) || r.optRebuilt) = false ∧
    (runLoop cfgLateStart).countP (fun r => r.rebuildFired) = 0 := by
  decide

/-- C2 (amended): for every non-resumed run of a non-simple architecture
whose start epoch is at or before the boundary, the rebuild fires exactly
when the loop epoch equals `UNFIX_EPOCH` and at most once per run; for
epochs before the boundary the active state is the warm-phase startup one,
and for epochs at or after the boundary it is the full-phase state rebuilt
at the boundary. -/
theorem phase_schedule_of_run (cfg : Config)
    (h1 : cfg.RESUME = none)
    (h2 : cfg.START_EPOCH ≤ cfg.UNFIX_EPOCH)
    (h3 : (["SiamDW", "SiamFC"].contains cfg.MODEL_NAME) = false) :
    (runLoop cfg).countP (fun r => r.rebuildFired) ≤ 1 ∧
    ((runLoop cfg).all fun r =>
      (r.rebuildFired == decide (r.epoch = cfg.UNFIX_EPOCH)) &&
      (if r.epoch < cfg.UNFIX_EPOCH then
         decide (r.opt = initialOpt cfg) && !r.optRebuilt &&
           decide (r.opt.phase cfg = Phase.WARM)
       else
         decide (r.opt = build_siamese_opt_lr cfg cfg.UNFIX_EPOCH) &&
           r.optRebuilt && decide (r.opt.phase cfg = Phase.FULL))) = true := by
  refine ⟨runLoop_rebuild_le_one cfg, ?_⟩
  have hstart : startEpoch cfg = cfg.START_EPOCH := by simp [startEpoch, h1]
  rw [runLoop, hstart, runLoopAux_through cfg _ cfg.START_EPOCH _ h2,
    List.all_eq_true]
  intro r hr
  rw [List.mem_map] at hr
  obtain ⟨e, he, rfl⟩ := hr
  have hse : cfg.START_EPOCH ≤ e := (List.mem_range'_1.mp he).1
  by_cases hlt : e < cfg.UNFIX_EPOCH
  · have hne : ¬ (e = cfg.UNFIX_EPOCH) := by omega
    have hSlt : cfg.START_EPOCH < cfg.UNFIX_EPOCH := by omega
    have hSne : ¬ (cfg.START_EPOCH = cfg.UNFIX_EPOCH) := by omega
    have h3' : ¬ (cfg.MODEL_NAME = "SiamDW" ∨ cfg.MODEL_NAME = "SiamFC") := by
      simpa using h3
    have hinit : initialOpt cfg = build_siamese_opt_lr cfg cfg.START_EPOCH := by
      simp [initialOpt, hSne, h3, h3']
    simp [loopStep, hlt, hne, hinit, OptState.phase, build_siamese_opt_lr, hSlt]
  · by_cases heq : e = cfg.UNFIX_EPOCH
    · simp [loopStep, hlt, heq, OptState.phase, build_siamese_opt_lr]
    · simp [loopStep, hlt, heq, OptState.phase, build_siamese_opt_lr]

/-- Witness for the amended C2 at the concrete §8 scenario
configuration. -/
theorem phase_schedule_of_run_witness :
    cfgScenario.RESUME = none ∧
    cfgScenario.START_EPOCH ≤ cfgScenario.UNFIX_EPOCH ∧
    (["SiamDW", "SiamFC"].contains cfgScenario.MODEL_NAME) = false ∧
    ((runLoop cfgScenario).countP (fun r => r.rebuildFired) ≤ 1 ∧
     ((runLoop cfgScenario).all fun r =>
       (r.rebuildFired == decide (r.epoch = cfgScenario.UNFIX_EPOCH)) &&
       (if r.epoch < cfgScenario.UNFIX_EPOCH then
          decide (r.opt = initialOpt cfgScenario) && !r.optRebuilt &&
            decide (r.opt.phase cfgScenario = Phase.WARM)
        else
          decide (r.opt = build_siamese_opt_lr cfgScenario cfgScenario.UNFIX_EPOCH) &&
            r.optRebuilt && decide (r.opt.phase cfgScenario = Phase.FULL))) = true) :=
  ⟨rfl, by decide, by decide,
   phase_schedule_of_run cfgScenario rfl (by decide) (by decide)⟩

theorem runLoopAux_sum_save (cfg : Config) :
    ∀ (es : List Nat) (st : OptState × Bool),
      (List.map (List.countP isSaveEvent ∘ iterEvents)
        (runLoopAux cfg st es)).sum = es.length := by
  intro es
  induction es with
  | nil => intro st; rfl
  | cons e es ih =>
    intro st
    simp [runLoopAux, Function.comp, iterEvents_countP_save, ih]
    omega

/-- C3: every loop iteration performs exactly one checkpoint save, as its
final action after the trainer call, always with `isbest=False`
(line 134); over a full non-resumed run the number of save events in the
trace equals `END_EPOCH - START_EPOCH`. -/
theorem checkpoint_saved_every_epoch (cfg : Config)
    (hres : cfg.RESUME = none)
    (hsup : supportedModel cfg.MODEL_NAME = true) :
    (epoch_train cfg).countP isSaveEvent = cfg.END_EPOCH - cfg.START_EPOCH ∧
    ((runLoop cfg).all fun r =>
       ((iterEvents r).countP isSaveEvent == 1) &&
       decide ((iterEvents r).getLast? =
         some (Event.checkpointSaved r.epoch false)) &&
       !r.savedIsBest) = true := by
  constructor
  · have hstart : startEpoch cfg = cfg.START_EPOCH := by
      simp [startEpoch, hres]
    unfold epoch_train
    rw [if_pos hsup, hres]
    simp [List.countP_cons, List.countP_append, isSaveEvent, runLoop, hstart,
      runLoopAux_sum_save, List.length_range']
  · rw [runLoop]
    apply runLoopAux_all
    intro st e
    by_cases h : e = cfg.UNFIX_EPOCH <;>
      simp [loopStep, iterEvents, h, isSaveEvent, List.countP_cons]

/-- Witness for C3 at the concrete §8 scenario configuration: 3 saves for
3 epochs. -/
theorem checkpoint_saved_every_epoch_witness :
    cfgScenario.RESUME = none ∧
    supportedModel cfgScenario.MODEL_NAME = true ∧
    ((epoch_train cfgScenario).countP isSaveEvent
        = cfgScenario.END_EPOCH - cfgScenario.START_EPOCH ∧
     ((runLoop cfgScenario).all fun r =>
        ((iterEvents r).countP isSaveEvent == 1) &&
        decide ((iterEvents r).getLast? =
          some (Event.checkpointSaved r.epoch false)) &&
        !r.savedIsBest) = true) :=
  ⟨rfl, by decide, checkpoint_saved_every_epoch cfgScenario rfl (by decide)⟩

end TrainSot
